import Mathlib

/-!
# Verification of the discharge-note generator pipeline

A shallow embedding of `generate_notes.py`: the JSON data model, the
Python dictionary/list semantics the script relies on (`dict.get`,
truthiness, iteration, `str.join`), the per-section summarizers in
`main`, the prompt assembly, and the output / exit-code logic.
Fallible Python operations (attribute errors on non-dict `.get`,
type errors on joining non-strings or iterating non-iterables) are
modelled with `Except String`.
-/

/-- A parsed JSON value, as produced by `json.load`.  Numbers are
modelled as integers (no claim touches numeric leaves). -/
inductive Json where
  | null : Json
  | bool (b : Bool) : Json
  | num (n : Int) : Json
  | str (s : String) : Json
  | arr (items : List Json) : Json
  | obj (fields : List (String × Json)) : Json

/-- Dictionary lookup.  `json.load` builds dicts where a duplicated key
keeps its last value, so the lookup returns the last binding. -/
def assocLast (fs : List (String × Json)) (k : String) : Option Json :=
  fs.foldl (fun acc kv => if kv.1 = k then some kv.2 else acc) none

/-- Python `j.get(k, d)`: succeeds only on a dict (anything else lacks
the `.get` attribute and raises `AttributeError`); on a dict it returns
the stored value when the key is present, else the default. -/
def pyGet (j : Json) (k : String) (d : Json) : Except String Json :=
  match j with
  | Json.obj fs => Except.ok ((assocLast fs k).getD d)
  | _ => Except.error "AttributeError"

/-- Python truthiness of a value: `None`, `False`, `0`, `""`, `[]` and
an empty dict are falsy, everything else is truthy. -/
def pyTruthy : Json → Bool
  | Json.null => false
  | Json.bool b => b
  | Json.num n => n != 0
  | Json.str s => s != ""
  | Json.arr items => !items.isEmpty
  | Json.obj fields => !fields.isEmpty

/-- Python iteration `for x in j`: a list yields its elements, a string
its one-character substrings, a dict its keys; other values raise
`TypeError`. -/
def pyIter : Json → Except String (List Json)
  | Json.arr items => Except.ok items
  | Json.str s => Except.ok (s.data.map fun c => Json.str (String.mk [c]))
  | Json.obj fields => Except.ok (fields.map fun kv => Json.str kv.1)
  | _ => Except.error "TypeError"

/-- All elements as strings, when every element is a string. -/
def jsonStrings : List Json → Option (List String)
  | [] => some []
  | Json.str s :: rest => (jsonStrings rest).map (fun ss => s :: ss)
  | _ => none

/-- Python `sep.join(xs)`: succeeds only when every element is a
string, otherwise raises `TypeError`. -/
def pyJoin (sep : String) (xs : List Json) : Except String String :=
  match jsonStrings xs with
  | some ss => Except.ok (String.intercalate sep ss)
  | none => Except.error "TypeError"

/-- The filtered comprehension
`[it.get(key, d) for it in items if it.get(key)]` used for clinical
notes, procedures, foods, supplies and diagnostics: an item passes only
when its stored value is truthy (a missing key defaults to the falsy
`None`), and only passing items are evaluated into the result. -/
def filteredValues (key : String) (d : Json) : List Json → Except String (List Json)
  | [] => Except.ok []
  | it :: rest => do
    let cond ← pyGet it key Json.null
    if pyTruthy cond then
      let v ← pyGet it key d
      let vs ← filteredValues key d rest
      pure (v :: vs)
    else
      filteredValues key d rest

/-- The unfiltered loop used for medicines and prescriptions: every
item contributes `it.get("name", d)`, dropping nothing. -/
def allItemNames (d : Json) : List Json → Except String (List Json)
  | [] => Except.ok []
  | it :: rest => do
    let v ← pyGet it "name" d
    let vs ← allItemNames d rest
    pure (v :: vs)

mutual
/-- Python `repr` of a JSON value (approximate: strings are shown in
single quotes without escaping). -/
def pyRepr : Json → String
  | Json.null => "None"
  | Json.bool true => "True"
  | Json.bool false => "False"
  | Json.num n => toString n
  | Json.str s => "\x27" ++ s ++ "\x27"
  | Json.arr items => "[" ++ String.intercalate ", " (pyReprList items) ++ "]"
  | Json.obj fields => "\x7b" ++ String.intercalate ", " (pyReprFields fields) ++ "\x7d"

def pyReprList : List Json → List String
  | [] => []
  | x :: xs => pyRepr x :: pyReprList xs

def pyReprFields : List (String × Json) → List String
  | [] => []
  | kv :: fs => ("\x27" ++ kv.1 ++ "\x27: " ++ pyRepr kv.2) :: pyReprFields fs
end

/-- Python `str` of a value, as used by f-string interpolation: a
string interpolates verbatim, anything else via its `repr`-style
display. -/
def pyStr (j : Json) : String :=
  match j with
  | Json.str s => s
  | _ => pyRepr j

/-- Clinical-notes section (`generate_notes.py` lines 137-142). -/
def clinicalNotesSummary (consult_info : Json) : Except String String := do
  let clinical_notes_list ← pyGet consult_info "clinical_notes" (Json.arr [])
  if pyTruthy clinical_notes_list then
    let notes ← pyIter clinical_notes_list
    let notes_texts ← filteredValues "note" (Json.str "") notes
    if notes_texts.isEmpty then
      pure "No specific clinical notes recorded for this visit."
    else do
      let joined ← pyJoin "\n" notes_texts
      pure ("Clinical observations: " ++ joined)
  else
    pure "No specific clinical notes recorded for this visit."

/-- Procedures section (lines 147-152): omitted (`none`) when the list
is absent/falsy or no item qualifies. -/
def proceduresPart (treatment_items : Json) : Except String (Option String) := do
  let procedures_list ← pyGet treatment_items "procedures" (Json.arr [])
  if pyTruthy procedures_list then
    let items ← pyIter procedures_list
    let proc_names ← filteredValues "name" (Json.str "Unnamed Procedure") items
    if proc_names.isEmpty then
      pure none
    else do
      let joined ← pyJoin ", " proc_names
      pure (some ("Procedures performed: " ++ joined ++ "."))
  else
    pure none

/-- Medicines section (lines 155-175): every item contributes its name
or the default `"Unnamed Medicine"`; no filtering. -/
def medicinesPart (treatment_items : Json) : Except String (Option String) := do
  let medicines_list ← pyGet treatment_items "medicines" (Json.arr [])
  if pyTruthy medicines_list then
    let items ← pyIter medicines_list
    let med_summaries ← allItemNames (Json.str "Unnamed Medicine") items
    if med_summaries.isEmpty then
      pure none
    else do
      let joined ← pyJoin ", " med_summaries
      pure (some ("Medicines administered during the visit: " ++ joined ++ "."))
  else
    pure none

/-- The fixed fallback sentence of the prescriptions section. -/
def noPrescriptionsFallback : String :=
  "Medications prescribed for home care: No new medications were prescribed for you to take home during this visit. If your pet is on existing medication, please continue as previously directed."

/-- Prescriptions section (lines 178-202): when the list is truthy,
every item contributes its name or the default
`"Unnamed Prescription"` (no filtering); when the list is falsy the
fixed fallback sentence is emitted. -/
def prescriptionsPart (treatment_items : Json) : Except String (Option String) := do
  let prescriptions_list ← pyGet treatment_items "prescriptions" (Json.arr [])
  if pyTruthy prescriptions_list then
    let items ← pyIter prescriptions_list
    let home_med_details ← allItemNames (Json.str "Unnamed Prescription") items
    if home_med_details.isEmpty then
      pure none
    else do
      let joined ← pyJoin ", " home_med_details
      pure (some ("Medications prescribed for home care: " ++ joined ++ ". Please follow the specific instructions provided for administration."))
  else
    pure (some noPrescriptionsFallback)

/-- Foods section (lines 206-210). -/
def foodsPart (treatment_items : Json) : Except String (Option String) := do
  let foods_list ← pyGet treatment_items "foods" (Json.arr [])
  if pyTruthy foods_list then
    let items ← pyIter foods_list
    let food_names ← filteredValues "name" (Json.str "Unnamed Food Item") items
    if food_names.isEmpty then
      pure none
    else do
      let joined ← pyJoin ", " food_names
      pure (some ("Specific foods recommended/dispensed: " ++ joined ++ "."))
  else
    pure none

/-- Supplies section (lines 213-217). -/
def suppliesPart (treatment_items : Json) : Except String (Option String) := do
  let supplies_list ← pyGet treatment_items "supplies" (Json.arr [])
  if pyTruthy supplies_list then
    let items ← pyIter supplies_list
    let supply_names ← filteredValues "name" (Json.str "Unnamed Supply") items
    if supply_names.isEmpty then
      pure none
    else do
      let joined ← pyJoin ", " supply_names
      pure (some ("Supplies provided: " ++ joined ++ "."))
  else
    pure none

/-- `treatment_details_parts` after all five append sites (lines
145-217), in the source's append order. -/
def buildTreatmentParts (treatment_items : Json) : Except String (List String) := do
  let p ← proceduresPart treatment_items
  let m ← medicinesPart treatment_items
  let pr ← prescriptionsPart treatment_items
  let f ← foodsPart treatment_items
  let s ← suppliesPart treatment_items
  pure (p.toList ++ m.toList ++ pr.toList ++ f.toList ++ s.toList)

/-- `all_treatment_summary` (line 220): joined parts, or the aggregate
fallback when no part was appended. -/
def allTreatmentSummary (parts : List String) : String :=
  if parts.isEmpty then
    "No specific treatments, medications, or supplies were recorded for this visit."
  else
    String.intercalate "\n\n" parts

/-- Diagnostics section (lines 223-228): like procedures but with a
fixed fallback instead of omission. -/
def diagnosticsSummary (consult_info : Json) : Except String String := do
  let diagnostics_list ← pyGet consult_info "diagnostics" (Json.arr [])
  if pyTruthy diagnostics_list then
    let items ← pyIter diagnostics_list
    let diag_names ← filteredValues "name" (Json.str "Unnamed Diagnostic") items
    if diag_names.isEmpty then
      pure "Diagnostics performed: No diagnostics were recorded for this visit."
    else do
      let joined ← pyJoin ", " diag_names
      pure ("Diagnostics performed: " ++ joined ++ ".")
  else
    pure "Diagnostics performed: No diagnostics were recorded for this visit."

/-- The f-string template of `consultation_summary_for_llm` (lines
231-248), with the interpolation slots as arguments.  The four-space
indentation, blank lines and the truncated
`--- End Diagnostics Summary --` marker are exactly as in the source. -/
def mkConsultationSummary (pn ps cd cr clinical diag treat : String) : String :=
  "\n    Patient Name: " ++ pn ++
  "\n    Species: " ++ ps ++
  "\n    Consultation Date: " ++ cd ++
  "\n    Reason for Visit: " ++ cr ++
  "\n\n    " ++ clinical ++
  "\n\n    --- Diagnostics Summary ---\n    " ++ diag ++
  "\n    --- End Diagnostics Summary --\n\n    --- Treatment Summary ---\n    " ++ treat ++
  "\n    --- End Treatment Summary ---\n\n    Other Instructions/Observations from Vet: (Relying on LLM to infer general advice based on the provided data.)\n    "

/-- The extraction and assembly pipeline of `main` (lines 127-248),
from the parsed record to `consultation_summary_for_llm`, with the
source's evaluation order (so the first failing access decides the
raised error). -/
def consultationSummaryForLLM (consultation_data : Json) : Except String String := do
  let patient_info ← pyGet consultation_data "patient" (Json.obj [])
  let consult_info ← pyGet consultation_data "consultation" (Json.obj [])
  let treatment_items ← pyGet consult_info "treatment_items" (Json.obj [])
  let patient_name ← pyGet patient_info "name" (Json.str "Your pet")
  let patient_species ← pyGet patient_info "species" (Json.str "the species")
  let consult_date ← pyGet consult_info "date" (Json.str "the recent visit")
  let consult_reason ← pyGet consult_info "reason" (Json.str "the consultation")
  let clinical ← clinicalNotesSummary consult_info
  let parts ← buildTreatmentParts treatment_items
  let treat := allTreatmentSummary parts
  let diag ← diagnosticsSummary consult_info
  pure (mkConsultationSummary (pyStr patient_name) (pyStr patient_species)
    (pyStr consult_date) (pyStr consult_reason) clinical diag treat)

/-- The `user_prompt` f-string of `generate_discharge_note` (lines
53-59), wrapping the consultation summary. -/
def userPrompt (consultation_data_str : String) : String :=
  "\n        Please generate the text for a discharge note based on the following consultation information:\n        ---\n        " ++
  consultation_data_str ++
  "\n        ---\n        Remember to focus on what the pet owner needs to know and do.\n        "

/-- Python's default whitespace set for `str.strip()`: exactly the
characters for which `str.isspace()` holds — the ASCII controls
U+0009..U+000D and U+001C..U+001F, the space, NEL (U+0085), NBSP
(U+00A0), Ogham space (U+1680), the Unicode space separators
U+2000..U+200A, U+202F, U+205F, U+3000, and the line/paragraph
separators U+2028 and U+2029. -/
def pyWhitespace (c : Char) : Bool :=
  let n := c.toNat
  (9 ≤ n && n ≤ 13) || n = 32 || (28 ≤ n && n ≤ 31) || n = 133 || n = 160 ||
  n = 5760 || (8192 ≤ n && n ≤ 8202) || n = 8232 || n = 8233 ||
  n = 8239 || n = 8287 || n = 12288

/-- Python `s.strip()`: drop leading and trailing whitespace. -/
def pyStrip (s : String) : String :=
  String.mk (((s.data.dropWhile pyWhitespace).reverse.dropWhile pyWhitespace).reverse)

/-- `generate_discharge_note` viewed from its collaborator boundary:
`some s` models the completion endpoint returning message content `s`
(stripped twice, lines 76 and 79); `none` models any of the caught
exceptions, which the function converts to `None`. -/
def generate_discharge_note (response : Option String) : Option String :=
  match response with
  | some s => some (pyStrip (pyStrip s))
  | none => none

/-- One hexadecimal digit, lowercase, as `json.dumps` prints them. -/
def hexDigit (n : Nat) : Char :=
  if n < 10 then Char.ofNat (48 + n) else Char.ofNat (87 + n)

/-- Four hexadecimal digits. -/
def hex4 (n : Nat) : String :=
  String.mk [hexDigit (n / 4096 % 16), hexDigit (n / 256 % 16),
             hexDigit (n / 16 % 16), hexDigit (n % 16)]

/-- One character escaped as `json.dumps` (default `ensure_ascii=True`)
renders it inside a string literal. -/
def jsonEscapeChar (c : Char) : String :=
  if c = Char.ofNat 34 then "\\\""
  else if c = Char.ofNat 92 then "\\\\"
  else if c = Char.ofNat 10 then "\\n"
  else if c = Char.ofNat 9 then "\\t"
  else if c = Char.ofNat 13 then "\\r"
  else if c = Char.ofNat 8 then "\\b"
  else if c = Char.ofNat 12 then "\\f"
  else if c.toNat < 32 then "\\u" ++ hex4 c.toNat
  else if c.toNat < 127 then String.mk [c]
  else if c.toNat < 65536 then "\\u" ++ hex4 c.toNat
  else
    "\\u" ++ hex4 (55296 + (c.toNat - 65536) / 1024) ++
    "\\u" ++ hex4 (56320 + (c.toNat - 65536) % 1024)

/-- A JSON string literal as `json.dumps` renders it. -/
def jsonDumpString (s : String) : String :=
  "\"" ++ String.join (s.data.map jsonEscapeChar) ++ "\""

/-- `json.dumps({"discharge_note": note}, indent=2)` (line 278). -/
def outputJsonDumps (note : String) : String :=
  "\x7b\n  \"discharge_note\": " ++ jsonDumpString note ++ "\n\x7d"

/-- The tail of `main` (lines 257-279) applied to the result of
`generate_discharge_note`: the process exit code paired with what is
written to standard output (diagnostics go to standard error and are
not modelled).  `None` and the empty string both exit 1 without
printing; otherwise the JSON object is printed and the script ends
normally with exit code 0. -/
def mainResult (generated_note_text : Option String) : Nat × Option String :=
  match generated_note_text with
  | none => (1, none)
  | some t => if t = "" then (1, none) else (0, some (outputJsonDumps t))

/-- End-to-end behaviour from the completion collaborator's response to
the process outcome. -/
def runFromResponse (response : Option String) : Nat × Option String :=
  mainResult (generate_discharge_note response)

/-- `pat` is a prefix of `l`. -/
def listStartsWith : List Char → List Char → Bool
  | [], _ => true
  | _ :: _, [] => false
  | p :: ps, c :: cs => p == c && listStartsWith ps cs

/-- `pat` occurs as a contiguous run somewhere in `l`. -/
def charListContains (pat : List Char) : List Char → Bool
  | [] => listStartsWith pat []
  | c :: t => listStartsWith pat (c :: t) || charListContains pat t

/-- Substring test on strings. -/
def strContains (s pat : String) : Bool :=
  charListContains pat.data s.data

/-- Prefix test on strings. -/
def strStartsWith (s pat : String) : Bool :=
  listStartsWith pat.data s.data

/-- A list item is well shaped for `key` when it is a dict whose stored
value at `key`, if any, is a string. -/
def itemOkB (key : String) : Json → Bool
  | Json.obj fs =>
    match assocLast fs key with
    | none => true
    | some (Json.str _) => true
    | some _ => false
  | _ => false

/-- A list-valued field is well shaped when it is absent or a list of
well-shaped items. -/
def listFieldOkB (fs : List (String × Json)) (field key : String) : Bool :=
  match assocLast fs field with
  | none => true
  | some (Json.arr items) => items.all (itemOkB key)
  | some _ => false

/-- A record is well shaped when it is a dict, its `patient` and
`consultation` sub-records (when present) are dicts, and every
list-based section (when present) is a list of dicts whose `note`/
`name` values are strings.  Scalar leaves are unconstrained: the
pipeline never raises on them.  Every well-shaped record completes
without an exception; the condition is sufficient, not necessary
(e.g. a list field stored as a falsy `null` is skipped by the
truthiness guard and also completes). -/
def wellShapedB (r : Json) : Bool :=
  match r with
  | Json.obj fs =>
    (match assocLast fs "patient" with
     | none => true
     | some (Json.obj _) => true
     | some _ => false) &&
    (match assocLast fs "consultation" with
     | none => true
     | some (Json.obj cfs) =>
       listFieldOkB cfs "clinical_notes" "note" &&
       listFieldOkB cfs "diagnostics" "name" &&
       (match assocLast cfs "treatment_items" with
        | none => true
        | some (Json.obj tfs) =>
          listFieldOkB tfs "procedures" "name" &&
          listFieldOkB tfs "medicines" "name" &&
          listFieldOkB tfs "prescriptions" "name" &&
          listFieldOkB tfs "foods" "name" &&
          listFieldOkB tfs "supplies" "name"
        | some _ => false)
     | some _ => false)
  | _ => false

/-- Modelled from the spec's qualification rule (§4.2): the qualifying
values of a list of items, namely the stored strings at `key` that are
present and non-empty, in order.  Used to state refinement of the
implementation's filtered comprehensions against the spec's words. -/
def specQualNames (key : String) (items : List Json) : List String :=
  items.filterMap fun it =>
    match it with
    | Json.obj fs =>
      match assocLast fs key with
      | some (Json.str s) => if s = "" then none else some s
      | _ => none
    | _ => none

/-- Modelled from the spec's description of the medicines/prescriptions
loops: every item contributes its stored name, or the default `d` when
the name key is absent (a non-dict item or non-string name never arises
on well-shaped input). -/
def specAllNames (d : String) (items : List Json) : List String :=
  items.map fun it =>
    match it with
    | Json.obj fs =>
      match assocLast fs "name" with
      | some (Json.str s) => s
      | _ => d
    | _ => d

/-- Fields of the round-trip scenario record in §8 of the spec. -/
def miloFields : List (String × Json) :=
  [("patient", Json.obj [("name", Json.str "Milo"), ("species", Json.str "dog")]),
   ("consultation", Json.obj [
      ("date", Json.str "2024-05-01"),
      ("reason", Json.str "limping"),
      ("clinical_notes", Json.arr []),
      ("diagnostics", Json.arr [Json.obj [("name", Json.str "X-ray")]]),
      ("treatment_items", Json.obj [
        ("prescriptions", Json.arr [Json.obj [("name", Json.str "Carprofen")]])])])]

/-- Concrete record of the round-trip scenario in §8 of the spec. -/
def miloRecord : Json := Json.obj miloFields

/-- The summary string the pipeline produces for `miloRecord`. -/
def miloSummary : String :=
  "\n    Patient Name: Milo\n    Species: dog\n    Consultation Date: 2024-05-01\n    Reason for Visit: limping\n\n    No specific clinical notes recorded for this visit.\n\n    --- Diagnostics Summary ---\n    Diagnostics performed: X-ray.\n    --- End Diagnostics Summary --\n\n    --- Treatment Summary ---\n    Medications prescribed for home care: Carprofen. Please follow the specific instructions provided for administration.\n    --- End Treatment Summary ---\n\n    Other Instructions/Observations from Vet: (Relying on LLM to infer general advice based on the provided data.)\n    "

/-- Modelled from the spec (§4.2): the qualifying names of a list-based
field of a well-shaped sub-record — the stored strings at `key` of the
items of `field`, present and non-empty, in order; `[]` when the field
is absent or its list is empty. -/
def specSectionNames (fs : List (String × Json)) (field key : String) : List String :=
  match assocLast fs field with
  | some (Json.arr items) => specQualNames key items
  | _ => []

/-- Expected procedures section on well-shaped input. -/
def specProcPart (tfs : List (String × Json)) : Option String :=
  let ns := specSectionNames tfs "procedures" "name"
  if ns.isEmpty then none
  else some ("Procedures performed: " ++ String.intercalate ", " ns ++ ".")

/-- Expected medicines section on well-shaped input: unfiltered. -/
def specMedPart (tfs : List (String × Json)) : Option String :=
  match assocLast tfs "medicines" with
  | some (Json.arr items) =>
    if items.isEmpty then none
    else some ("Medicines administered during the visit: " ++
      String.intercalate ", " (specAllNames "Unnamed Medicine" items) ++ ".")
  | _ => none

/-- Expected prescriptions section on well-shaped input: unfiltered,
with the fixed fallback when the list is absent or empty. -/
def specPrescrPart (tfs : List (String × Json)) : Option String :=
  match assocLast tfs "prescriptions" with
  | some (Json.arr items) =>
    if items.isEmpty then some noPrescriptionsFallback
    else some ("Medications prescribed for home care: " ++
      String.intercalate ", " (specAllNames "Unnamed Prescription" items) ++
      ". Please follow the specific instructions provided for administration.")
  | _ => some noPrescriptionsFallback

/-- Expected foods section on well-shaped input. -/
def specFoodsPart (tfs : List (String × Json)) : Option String :=
  let ns := specSectionNames tfs "foods" "name"
  if ns.isEmpty then none
  else some ("Specific foods recommended/dispensed: " ++ String.intercalate ", " ns ++ ".")

/-- Expected supplies section on well-shaped input. -/
def specSuppliesPart (tfs : List (String × Json)) : Option String :=
  let ns := specSectionNames tfs "supplies" "name"
  if ns.isEmpty then none
  else some ("Supplies provided: " ++ String.intercalate ", " ns ++ ".")

/-- Expected treatment parts, in the fixed append order of the source:
procedures, medicines, prescriptions, foods, supplies. -/
def specTreatmentParts (tfs : List (String × Json)) : List String :=
  (specProcPart tfs).toList ++ (specMedPart tfs).toList ++
  (specPrescrPart tfs).toList ++ (specFoodsPart tfs).toList ++
  (specSuppliesPart tfs).toList

/-- Expected clinical-notes section on well-shaped input. -/
def specClinicalSummary (cfs : List (String × Json)) : String :=
  let ts := specSectionNames cfs "clinical_notes" "note"
  if ts.isEmpty then "No specific clinical notes recorded for this visit."
  else "Clinical observations: " ++ String.intercalate "\n" ts

/-- Expected diagnostics section on well-shaped input. -/
def specDiagSummary (cfs : List (String × Json)) : String :=
  let ns := specSectionNames cfs "diagnostics" "name"
  if ns.isEmpty then "Diagnostics performed: No diagnostics were recorded for this visit."
  else "Diagnostics performed: " ++ String.intercalate ", " ns ++ "."

theorem exceptBind_ok {α β ε : Type} (a : α) (f : α → Except ε β) :
    (Except.ok a >>= f) = f a := rfl

theorem exceptBind_error {α β ε : Type} (e : ε) (f : α → Except ε β) :
    ((Except.error e : Except ε α) >>= f) = Except.error e := rfl

theorem exceptPure {α ε : Type} (a : α) : (pure a : Except ε α) = Except.ok a := rfl

theorem jsonStrings_map_str (ss : List String) :
    jsonStrings (ss.map Json.str) = some ss := by
  induction ss with
  | nil => rfl
  | cons s t ih => simp [jsonStrings, ih]

theorem pyJoin_strs (sep : String) (ss : List String) :
    pyJoin sep (ss.map Json.str) = Except.ok (String.intercalate sep ss) := by
  simp [pyJoin, jsonStrings_map_str]

theorem jsonStrings_map_comp {α : Type} (f : α → String) (l : List α) :
    jsonStrings (List.map (Json.str ∘ f) l) = some (l.map f) := by
  induction l with
  | nil => rfl
  | cons x xs ih => simp [jsonStrings, Function.comp, ih]

theorem itemOkB_obj {key : String} {gs : List (String × Json)}
    (h : itemOkB key (Json.obj gs) = true) :
    assocLast gs key = none ∨ ∃ s, assocLast gs key = some (Json.str s) := by
  cases hk : assocLast gs key with
  | none => exact Or.inl rfl
  | some v =>
    cases v with
    | str s => exact Or.inr ⟨s, rfl⟩
    | null => simp [itemOkB, hk] at h
    | bool b => simp [itemOkB, hk] at h
    | num n => simp [itemOkB, hk] at h
    | arr xs => simp [itemOkB, hk] at h
    | obj fs => simp [itemOkB, hk] at h

theorem filteredValues_wellShaped (key : String) (d : Json) (items : List Json)
    (h : items.all (itemOkB key) = true) :
    filteredValues key d items = Except.ok ((specQualNames key items).map Json.str) := by
  induction items with
  | nil => rfl
  | cons it rest ih =>
    simp only [List.all_cons, Bool.and_eq_true] at h
    obtain ⟨hit, hrest⟩ := h
    cases it with
    | obj gs =>
      rcases itemOkB_obj hit with hk | ⟨s, hk⟩
      · simp [filteredValues, pyGet, hk, pyTruthy, exceptBind_ok,
          specQualNames, List.filterMap_cons, ih hrest]
      · by_cases hs : s = ""
        · subst hs
          simp [filteredValues, pyGet, hk, pyTruthy, exceptBind_ok,
            specQualNames, List.filterMap_cons, ih hrest]
        · have ihr := ih hrest
          simp [filteredValues, pyGet, hk, pyTruthy, hs, exceptBind_ok,
            specQualNames, List.filterMap_cons, ihr, exceptPure]
    | null => simp [itemOkB] at hit
    | bool b => simp [itemOkB] at hit
    | num n => simp [itemOkB] at hit
    | str s => simp [itemOkB] at hit
    | arr xs => simp [itemOkB] at hit

theorem allItemNames_wellShaped (d : String) (items : List Json)
    (h : items.all (itemOkB "name") = true) :
    allItemNames (Json.str d) items = Except.ok ((specAllNames d items).map Json.str) := by
  induction items with
  | nil => rfl
  | cons it rest ih =>
    simp only [List.all_cons, Bool.and_eq_true] at h
    obtain ⟨hit, hrest⟩ := h
    cases it with
    | obj gs =>
      rcases itemOkB_obj hit with hk | ⟨s, hk⟩
      · simp [allItemNames, pyGet, hk, exceptBind_ok, specAllNames, ih hrest, exceptPure]
      · simp [allItemNames, pyGet, hk, exceptBind_ok, specAllNames, ih hrest, exceptPure]
    | null => simp [itemOkB] at hit
    | bool b => simp [itemOkB] at hit
    | num n => simp [itemOkB] at hit
    | str s => simp [itemOkB] at hit
    | arr xs => simp [itemOkB] at hit

theorem allItemNames_length (d : Json) (items : List Json) (vs : List Json)
    (h : allItemNames d items = Except.ok vs) : vs.length = items.length := by
  induction items generalizing vs with
  | nil =>
    simp only [allItemNames] at h
    cases h
    rfl
  | cons it rest ih =>
    simp only [allItemNames] at h
    cases hg : pyGet it "name" d with
    | error e => rw [hg, exceptBind_error] at h; cases h
    | ok v =>
      rw [hg, exceptBind_ok] at h
      cases hr : allItemNames d rest with
      | error e => rw [hr, exceptBind_error] at h; cases h
      | ok ws =>
        rw [hr, exceptBind_ok, exceptPure] at h
        cases h
        simp [ih ws hr]

theorem pyIter_truthy_ne_nil (v : Json) (items : List Json)
    (ht : pyTruthy v = true) (hi : pyIter v = Except.ok items) : items ≠ [] := by
  cases v with
  | null => simp [pyTruthy] at ht
  | bool b => simp [pyIter] at hi
  | num n => simp [pyIter] at hi
  | str s =>
    simp only [pyIter, Except.ok.injEq] at hi
    subst hi
    simp only [pyTruthy, bne_iff_ne, ne_eq] at ht
    simp only [ne_eq, List.map_eq_nil_iff]
    intro hd
    exact ht (by cases s; simp_all)
  | arr xs =>
    simp only [pyIter, Except.ok.injEq] at hi
    subst hi
    simpa [pyTruthy, List.isEmpty_iff] using ht
  | obj fs =>
    simp only [pyIter, Except.ok.injEq] at hi
    subst hi
    simp only [pyTruthy, Bool.not_eq_true', List.isEmpty_eq_false_iff_exists_mem] at ht
    simp only [ne_eq, List.map_eq_nil_iff]
    intro hd
    subst hd
    simp at ht

theorem listFieldOkB_arr {fs : List (String × Json)} {field key : String}
    (h : listFieldOkB fs field key = true) :
    assocLast fs field = none ∨
    ∃ items, assocLast fs field = some (Json.arr items) ∧ items.all (itemOkB key) = true := by
  cases hk : assocLast fs field with
  | none => exact Or.inl rfl
  | some v =>
    cases v with
    | arr items => exact Or.inr ⟨items, rfl, by simpa [listFieldOkB, hk] using h⟩
    | null => simp [listFieldOkB, hk] at h
    | bool b => simp [listFieldOkB, hk] at h
    | num n => simp [listFieldOkB, hk] at h
    | str s => simp [listFieldOkB, hk] at h
    | obj gs => simp [listFieldOkB, hk] at h

theorem proceduresPart_wellShaped (tfs : List (String × Json))
    (h : listFieldOkB tfs "procedures" "name" = true) :
    proceduresPart (Json.obj tfs) = Except.ok (specProcPart tfs) := by
  rcases listFieldOkB_arr h with hk | ⟨items, hk, hall⟩
  · simp [proceduresPart, pyGet, hk, pyTruthy, exceptBind_ok, exceptPure,
      specProcPart, specSectionNames]
  · cases items with
    | nil =>
      simp [proceduresPart, pyGet, hk, pyTruthy, exceptBind_ok, exceptPure,
        specProcPart, specSectionNames, specQualNames]
    | cons a rest =>
      have hfv := filteredValues_wellShaped "name" (Json.str "Unnamed Procedure") (a :: rest) hall
      by_cases hq : specQualNames "name" (a :: rest) = []
      · simp [proceduresPart, pyGet, hk, pyTruthy, pyIter, exceptBind_ok, exceptPure,
          hfv, hq, specProcPart, specSectionNames]
      · simp [proceduresPart, pyGet, hk, pyTruthy, pyIter, exceptBind_ok, exceptPure,
          hfv, hq, specProcPart, specSectionNames, pyJoin_strs]

theorem foodsPart_wellShaped (tfs : List (String × Json))
    (h : listFieldOkB tfs "foods" "name" = true) :
    foodsPart (Json.obj tfs) = Except.ok (specFoodsPart tfs) := by
  rcases listFieldOkB_arr h with hk | ⟨items, hk, hall⟩
  · simp [foodsPart, pyGet, hk, pyTruthy, exceptBind_ok, exceptPure,
      specFoodsPart, specSectionNames]
  · cases items with
    | nil =>
      simp [foodsPart, pyGet, hk, pyTruthy, exceptBind_ok, exceptPure,
        specFoodsPart, specSectionNames, specQualNames]
    | cons a rest =>
      have hfv := filteredValues_wellShaped "name" (Json.str "Unnamed Food Item") (a :: rest) hall
      by_cases hq : specQualNames "name" (a :: rest) = []
      · simp [foodsPart, pyGet, hk, pyTruthy, pyIter, exceptBind_ok, exceptPure,
          hfv, hq, specFoodsPart, specSectionNames]
      · simp [foodsPart, pyGet, hk, pyTruthy, pyIter, exceptBind_ok, exceptPure,
          hfv, hq, specFoodsPart, specSectionNames, pyJoin_strs]

theorem suppliesPart_wellShaped (tfs : List (String × Json))
    (h : listFieldOkB tfs "supplies" "name" = true) :
    suppliesPart (Json.obj tfs) = Except.ok (specSuppliesPart tfs) := by
  rcases listFieldOkB_arr h with hk | ⟨items, hk, hall⟩
  · simp [suppliesPart, pyGet, hk, pyTruthy, exceptBind_ok, exceptPure,
      specSuppliesPart, specSectionNames]
  · cases items with
    | nil =>
      simp [suppliesPart, pyGet, hk, pyTruthy, exceptBind_ok, exceptPure,
        specSuppliesPart, specSectionNames, specQualNames]
    | cons a rest =>
      have hfv := filteredValues_wellShaped "name" (Json.str "Unnamed Supply") (a :: rest) hall
      by_cases hq : specQualNames "name" (a :: rest) = []
      · simp [suppliesPart, pyGet, hk, pyTruthy, pyIter, exceptBind_ok, exceptPure,
          hfv, hq, specSuppliesPart, specSectionNames]
      · simp [suppliesPart, pyGet, hk, pyTruthy, pyIter, exceptBind_ok, exceptPure,
          hfv, hq, specSuppliesPart, specSectionNames, pyJoin_strs]

theorem clinicalNotesSummary_wellShaped (cfs : List (String × Json))
    (h : listFieldOkB cfs "clinical_notes" "note" = true) :
    clinicalNotesSummary (Json.obj cfs) = Except.ok (specClinicalSummary cfs) := by
  rcases listFieldOkB_arr h with hk | ⟨items, hk, hall⟩
  · simp [clinicalNotesSummary, pyGet, hk, pyTruthy, exceptBind_ok, exceptPure,
      specClinicalSummary, specSectionNames]
  · cases items with
    | nil =>
      simp [clinicalNotesSummary, pyGet, hk, pyTruthy, exceptBind_ok, exceptPure,
        specClinicalSummary, specSectionNames, specQualNames]
    | cons a rest =>
      have hfv := filteredValues_wellShaped "note" (Json.str "") (a :: rest) hall
      by_cases hq : specQualNames "note" (a :: rest) = []
      · simp [clinicalNotesSummary, pyGet, hk, pyTruthy, pyIter, exceptBind_ok, exceptPure,
          hfv, hq, specClinicalSummary, specSectionNames]
      · simp [clinicalNotesSummary, pyGet, hk, pyTruthy, pyIter, exceptBind_ok, exceptPure,
          hfv, hq, specClinicalSummary, specSectionNames, pyJoin_strs]

theorem diagnosticsSummary_wellShaped (cfs : List (String × Json))
    (h : listFieldOkB cfs "diagnostics" "name" = true) :
    diagnosticsSummary (Json.obj cfs) = Except.ok (specDiagSummary cfs) := by
  rcases listFieldOkB_arr h with hk | ⟨items, hk, hall⟩
  · simp [diagnosticsSummary, pyGet, hk, pyTruthy, exceptBind_ok, exceptPure,
      specDiagSummary, specSectionNames]
  · cases items with
    | nil =>
      simp [diagnosticsSummary, pyGet, hk, pyTruthy, exceptBind_ok, exceptPure,
        specDiagSummary, specSectionNames, specQualNames]
    | cons a rest =>
      have hfv := filteredValues_wellShaped "name" (Json.str "Unnamed Diagnostic") (a :: rest) hall
      by_cases hq : specQualNames "name" (a :: rest) = []
      · simp [diagnosticsSummary, pyGet, hk, pyTruthy, pyIter, exceptBind_ok, exceptPure,
          hfv, hq, specDiagSummary, specSectionNames]
      · simp [diagnosticsSummary, pyGet, hk, pyTruthy, pyIter, exceptBind_ok, exceptPure,
          hfv, hq, specDiagSummary, specSectionNames, pyJoin_strs]

theorem medicinesPart_wellShaped (tfs : List (String × Json))
    (h : listFieldOkB tfs "medicines" "name" = true) :
    medicinesPart (Json.obj tfs) = Except.ok (specMedPart tfs) := by
  rcases listFieldOkB_arr h with hk | ⟨items, hk, hall⟩
  · simp [medicinesPart, pyGet, hk, pyTruthy, exceptBind_ok, exceptPure, specMedPart]
  · cases items with
    | nil =>
      simp [medicinesPart, pyGet, hk, pyTruthy, exceptBind_ok, exceptPure, specMedPart]
    | cons a rest =>
      have hav := allItemNames_wellShaped "Unnamed Medicine" (a :: rest) hall
      simp [medicinesPart, pyGet, hk, pyTruthy, pyIter, exceptBind_ok, exceptPure,
        hav, specMedPart, specAllNames, pyJoin, jsonStrings, jsonStrings_map_comp,
        Function.comp]

theorem prescriptionsPart_wellShaped (tfs : List (String × Json))
    (h : listFieldOkB tfs "prescriptions" "name" = true) :
    prescriptionsPart (Json.obj tfs) = Except.ok (specPrescrPart tfs) := by
  rcases listFieldOkB_arr h with hk | ⟨items, hk, hall⟩
  · simp [prescriptionsPart, pyGet, hk, pyTruthy, exceptBind_ok, exceptPure, specPrescrPart]
  · cases items with
    | nil =>
      simp [prescriptionsPart, pyGet, hk, pyTruthy, exceptBind_ok, exceptPure, specPrescrPart]
    | cons a rest =>
      have hav := allItemNames_wellShaped "Unnamed Prescription" (a :: rest) hall
      simp [prescriptionsPart, pyGet, hk, pyTruthy, pyIter, exceptBind_ok, exceptPure,
        hav, specPrescrPart, specAllNames, pyJoin, jsonStrings, jsonStrings_map_comp,
        Function.comp]

theorem buildTreatmentParts_wellShaped (tfs : List (String × Json))
    (h1 : listFieldOkB tfs "procedures" "name" = true)
    (h2 : listFieldOkB tfs "medicines" "name" = true)
    (h3 : listFieldOkB tfs "prescriptions" "name" = true)
    (h4 : listFieldOkB tfs "foods" "name" = true)
    (h5 : listFieldOkB tfs "supplies" "name" = true) :
    buildTreatmentParts (Json.obj tfs) = Except.ok (specTreatmentParts tfs) := by
  simp [buildTreatmentParts, proceduresPart_wellShaped tfs h1, medicinesPart_wellShaped tfs h2,
    prescriptionsPart_wellShaped tfs h3, foodsPart_wellShaped tfs h4,
    suppliesPart_wellShaped tfs h5, exceptBind_ok, exceptPure, specTreatmentParts]

theorem wellShapedB_dest (fs : List (String × Json)) (h : wellShapedB (Json.obj fs) = true) :
    ∃ pfs cfs tfs,
      (assocLast fs "patient").getD (Json.obj []) = Json.obj pfs ∧
      (assocLast fs "consultation").getD (Json.obj []) = Json.obj cfs ∧
      (assocLast cfs "treatment_items").getD (Json.obj []) = Json.obj tfs ∧
      listFieldOkB cfs "clinical_notes" "note" = true ∧
      listFieldOkB cfs "diagnostics" "name" = true ∧
      listFieldOkB tfs "procedures" "name" = true ∧
      listFieldOkB tfs "medicines" "name" = true ∧
      listFieldOkB tfs "prescriptions" "name" = true ∧
      listFieldOkB tfs "foods" "name" = true ∧
      listFieldOkB tfs "supplies" "name" = true := by
  simp only [wellShapedB, Bool.and_eq_true] at h
  obtain ⟨hp, hc⟩ := h
  have hpatient : ∃ pfs, (assocLast fs "patient").getD (Json.obj []) = Json.obj pfs := by
    cases hpk : assocLast fs "patient" with
    | none => exact ⟨[], rfl⟩
    | some pv =>
      rw [hpk] at hp
      cases pv with
      | obj pfs => exact ⟨pfs, rfl⟩
      | null => simp at hp
      | bool b => simp at hp
      | num n => simp at hp
      | str s => simp at hp
      | arr xs => simp at hp
  obtain ⟨pfs, hpd⟩ := hpatient
  cases hck : assocLast fs "consultation" with
  | none =>
    exact ⟨pfs, [], [], hpd, rfl, rfl, rfl, rfl, rfl, rfl, rfl, rfl, rfl⟩
  | some cv =>
    rw [hck] at hc
    cases cv with
    | obj cfs =>
      simp only [Bool.and_eq_true] at hc
      obtain ⟨⟨hcn, hdg⟩, ht⟩ := hc
      revert ht
      cases htk : assocLast cfs "treatment_items" with
      | none =>
        intro ht
        exact ⟨pfs, cfs, [], hpd, rfl, by rw [htk]; rfl, hcn, hdg, rfl, rfl, rfl, rfl, rfl⟩
      | some tv =>
        intro ht
        cases tv with
        | obj tfs =>
          simp only [Bool.and_eq_true] at ht
          obtain ⟨⟨⟨⟨ht1, ht2⟩, ht3⟩, ht4⟩, ht5⟩ := ht
          exact ⟨pfs, cfs, tfs, hpd, rfl, by rw [htk]; rfl, hcn, hdg, ht1, ht2, ht3, ht4, ht5⟩
        | null => simp at ht
        | bool b => simp at ht
        | num n => simp at ht
        | str s => simp at ht
        | arr xs => simp at ht
    | null => simp at hc
    | bool b => simp at hc
    | num n => simp at hc
    | str s => simp at hc
    | arr xs => simp at hc

theorem consultationSummary_decomp (fs : List (String × Json))
    (h : wellShapedB (Json.obj fs) = true) :
    ∃ pfs cfs tfs,
      (assocLast fs "patient").getD (Json.obj []) = Json.obj pfs ∧
      (assocLast fs "consultation").getD (Json.obj []) = Json.obj cfs ∧
      (assocLast cfs "treatment_items").getD (Json.obj []) = Json.obj tfs ∧
      consultationSummaryForLLM (Json.obj fs) = Except.ok (mkConsultationSummary
        (pyStr ((assocLast pfs "name").getD (Json.str "Your pet")))
        (pyStr ((assocLast pfs "species").getD (Json.str "the species")))
        (pyStr ((assocLast cfs "date").getD (Json.str "the recent visit")))
        (pyStr ((assocLast cfs "reason").getD (Json.str "the consultation")))
        (specClinicalSummary cfs)
        (specDiagSummary cfs)
        (allTreatmentSummary (specTreatmentParts tfs))) := by
  obtain ⟨pfs, cfs, tfs, hpd, hcd, htd, hcn, hdg, h1, h2, h3, h4, h5⟩ := wellShapedB_dest fs h
  refine ⟨pfs, cfs, tfs, hpd, hcd, htd, ?_⟩
  simp [consultationSummaryForLLM, pyGet, hpd, hcd, htd, exceptBind_ok, exceptPure,
    clinicalNotesSummary_wellShaped cfs hcn, diagnosticsSummary_wellShaped cfs hdg,
    buildTreatmentParts_wellShaped tfs h1 h2 h3 h4 h5]

theorem prescriptionsPart_ne_none (ti : Json) (r : Option String)
    (h : prescriptionsPart ti = Except.ok r) : r ≠ none := by
  simp only [prescriptionsPart] at h
  cases hg : pyGet ti "prescriptions" (Json.arr []) with
  | error e => rw [hg, exceptBind_error] at h; cases h
  | ok v =>
    rw [hg, exceptBind_ok] at h
    by_cases htr : pyTruthy v = true
    · rw [if_pos htr] at h
      cases hi : pyIter v with
      | error e => rw [hi, exceptBind_error] at h; cases h
      | ok items =>
        rw [hi, exceptBind_ok] at h
        cases ha : allItemNames (Json.str "Unnamed Prescription") items with
        | error e => rw [ha, exceptBind_error] at h; cases h
        | ok details =>
          rw [ha, exceptBind_ok] at h
          have hne : items ≠ [] := pyIter_truthy_ne_nil v items htr hi
          have hlen := allItemNames_length _ _ _ ha
          cases details with
          | nil =>
            cases items with
            | nil => exact absurd rfl hne
            | cons x xs => simp at hlen
          | cons d ds =>
            rw [if_neg (by simp)] at h
            cases hj : pyJoin ", " (d :: ds) with
            | error e => rw [hj, exceptBind_error] at h; cases h
            | ok j =>
              rw [hj, exceptBind_ok, exceptPure] at h
              cases h
              simp
    · rw [if_neg htr, exceptPure] at h
      cases h
      simp

theorem listStartsWith_same (p t : List Char) : listStartsWith p (p ++ t) = true := by
  induction p with
  | nil => rfl
  | cons c cs ih => simp [listStartsWith, ih]

theorem listStartsWith_extend (pat : List Char) :
    ∀ a b, listStartsWith pat a = true → listStartsWith pat (a ++ b) = true := by
  induction pat with
  | nil => intro a b _; rfl
  | cons p ps ih =>
    intro a b h
    cases a with
    | nil => cases h
    | cons c cs =>
      simp only [listStartsWith, Bool.and_eq_true] at h
      simp only [List.cons_append, listStartsWith, Bool.and_eq_true]
      exact ⟨h.1, ih cs b h.2⟩

theorem strStartsWith_append (s1 s2 pat : String)
    (h : listStartsWith pat.data s1.data = true) :
    strStartsWith (s1 ++ s2) pat = true := by
  have : (s1 ++ s2).data = s1.data ++ s2.data := rfl
  rw [strStartsWith, this]
  exact listStartsWith_extend pat.data s1.data s2.data h

theorem buildTreatmentParts_inv (ti : Json) (parts : List String)
    (h : buildTreatmentParts ti = Except.ok parts) :
    ∃ p m pr f s, proceduresPart ti = Except.ok p ∧ medicinesPart ti = Except.ok m ∧
      prescriptionsPart ti = Except.ok pr ∧ foodsPart ti = Except.ok f ∧
      suppliesPart ti = Except.ok s ∧
      parts = p.toList ++ m.toList ++ pr.toList ++ f.toList ++ s.toList := by
  simp only [buildTreatmentParts] at h
  cases h1 : proceduresPart ti with
  | error e => rw [h1, exceptBind_error] at h; cases h
  | ok p =>
    rw [h1, exceptBind_ok] at h
    cases h2 : medicinesPart ti with
    | error e => rw [h2, exceptBind_error] at h; cases h
    | ok m =>
      rw [h2, exceptBind_ok] at h
      cases h3 : prescriptionsPart ti with
      | error e => rw [h3, exceptBind_error] at h; cases h
      | ok pr =>
        rw [h3, exceptBind_ok] at h
        cases h4 : foodsPart ti with
        | error e => rw [h4, exceptBind_error] at h; cases h
        | ok f =>
          rw [h4, exceptBind_ok] at h
          cases h5 : suppliesPart ti with
          | error e => rw [h5, exceptBind_error] at h; cases h
          | ok s =>
            rw [h5, exceptBind_ok, exceptPure] at h
            cases h
            exact ⟨p, m, pr, f, s, rfl, rfl, rfl, rfl, rfl, rfl⟩

theorem pyGet_obj_of_ok {it : Json} {key : String} {d cond : Json}
    (hg : pyGet it key d = Except.ok cond) :
    ∃ gs, it = Json.obj gs ∧ cond = (assocLast gs key).getD d := by
  cases it with
  | obj gs =>
    refine ⟨gs, rfl, ?_⟩
    simpa [pyGet] using hg.symm
  | null => simp [pyGet] at hg
  | bool b => simp [pyGet] at hg
  | num n => simp [pyGet] at hg
  | str s => simp [pyGet] at hg
  | arr xs => simp [pyGet] at hg

theorem filteredValues_sound (key : String) (d : Json) :
    ∀ (items vs : List Json), filteredValues key d items = Except.ok vs →
      ∀ v ∈ vs, pyTruthy v = true ∧
        ∃ it ∈ items, ∃ gs, it = Json.obj gs ∧ assocLast gs key = some v := by
  intro items
  induction items with
  | nil =>
    intro vs h v hv
    simp only [filteredValues, Except.ok.injEq] at h
    subst h
    simp at hv
  | cons it rest ih =>
    intro vs h v hv
    simp only [filteredValues] at h
    cases hg : pyGet it key Json.null with
    | error e => rw [hg, exceptBind_error] at h; cases h
    | ok cond =>
      rw [hg, exceptBind_ok] at h
      obtain ⟨gs, rfl, hcond⟩ := pyGet_obj_of_ok hg
      by_cases ht : pyTruthy cond = true
      · rw [if_pos ht] at h
        rw [show pyGet (Json.obj gs) key d = Except.ok ((assocLast gs key).getD d) from rfl,
          exceptBind_ok] at h
        cases hrest : filteredValues key d rest with
        | error e => rw [hrest, exceptBind_error] at h; cases h
        | ok ws =>
          rw [hrest, exceptBind_ok, exceptPure] at h
          cases h
          rcases List.mem_cons.mp hv with hv1 | hv2
          · subst hv1
            cases hk : assocLast gs key with
            | none =>
              rw [hk] at hcond
              simp only [Option.getD_none] at hcond
              subst hcond
              simp [pyTruthy] at ht
            | some w =>
              rw [hk] at hcond
              simp only [Option.getD_some] at hcond
              subst hcond
              simp only [Option.getD_some]
              exact ⟨ht, Json.obj gs, List.mem_cons_self _ _, gs, rfl, hk⟩
          · obtain ⟨htr, it', hmem, gs', heq, hk'⟩ := ih ws hrest v hv2
            exact ⟨htr, it', List.mem_cons_of_mem _ hmem, gs', heq, hk'⟩
      · rw [if_neg ht] at h
        obtain ⟨htr, it', hmem, gs', heq, hk'⟩ := ih vs h v hv
        exact ⟨htr, it', List.mem_cons_of_mem _ hmem, gs', heq, hk'⟩

theorem allItemNames_sound (d : Json) :
    ∀ (items vs : List Json), allItemNames d items = Except.ok vs →
      List.Forall₂ (fun it v => ∃ gs, it = Json.obj gs ∧
        (assocLast gs "name" = some v ∨ (assocLast gs "name" = none ∧ v = d)))
        items vs := by
  intro items
  induction items with
  | nil =>
    intro vs h
    simp only [allItemNames, Except.ok.injEq] at h
    subst h
    exact List.Forall₂.nil
  | cons it rest ih =>
    intro vs h
    simp only [allItemNames] at h
    cases hg : pyGet it "name" d with
    | error e => rw [hg, exceptBind_error] at h; cases h
    | ok v0 =>
      rw [hg, exceptBind_ok] at h
      cases hrest : allItemNames d rest with
      | error e => rw [hrest, exceptBind_error] at h; cases h
      | ok ws =>
        rw [hrest, exceptBind_ok, exceptPure] at h
        cases h
        obtain ⟨gs, rfl, hv0⟩ := pyGet_obj_of_ok hg
        refine List.Forall₂.cons ⟨gs, rfl, ?_⟩ (ih ws hrest)
        cases hk : assocLast gs "name" with
        | none =>
          rw [hk] at hv0
          exact Or.inr ⟨rfl, hv0⟩
        | some w =>
          rw [hk] at hv0
          simp only [Option.getD_some] at hv0
          subst hv0
          exact Or.inl rfl

theorem prescriptionsPart_starts (ti : Json) (pr : String)
    (h : prescriptionsPart ti = Except.ok (some pr)) :
    strStartsWith pr "Medications prescribed for home care:" = true := by
  simp only [prescriptionsPart] at h
  cases hg : pyGet ti "prescriptions" (Json.arr []) with
  | error e => rw [hg, exceptBind_error] at h; cases h
  | ok v =>
    rw [hg, exceptBind_ok] at h
    by_cases htr : pyTruthy v = true
    · rw [if_pos htr] at h
      cases hi : pyIter v with
      | error e => rw [hi, exceptBind_error] at h; cases h
      | ok items =>
        rw [hi, exceptBind_ok] at h
        cases ha : allItemNames (Json.str "Unnamed Prescription") items with
        | error e => rw [ha, exceptBind_error] at h; cases h
        | ok details =>
          rw [ha, exceptBind_ok] at h
          by_cases hd : details.isEmpty = true
          · rw [if_pos hd, exceptPure] at h
            simp at h
          · rw [if_neg hd] at h
            cases hj : pyJoin ", " details with
            | error e => rw [hj, exceptBind_error] at h; cases h
            | ok j =>
              rw [hj, exceptBind_ok, exceptPure] at h
              cases h
              apply strStartsWith_append
              have hdata : ("Medications prescribed for home care: " ++ j).data =
                  "Medications prescribed for home care: ".data ++ j.data := rfl
              rw [hdata]
              exact listStartsWith_extend _ _ _ (by decide)
    · rw [if_neg htr, exceptPure] at h
      cases h
      decide

/-- C1: the claim that every list-based section drops items with a
missing or empty `name` and that the "Unnamed X" defaults never reach
the output is FALSE for the medicines section: an item with no `name`
key yields the default "Unnamed Medicine" in the joined summary. -/
theorem claim_C1_counterexample :
    medicinesPart (Json.obj [("medicines", Json.arr [Json.obj []])]) =
      Except.ok (some "Medicines administered during the visit: Unnamed Medicine.") ∧
    strContains "Medicines administered during the visit: Unnamed Medicine."
      "Unnamed Medicine" = true :=
  ⟨rfl, by decide⟩

/-- C1 (amended): the filtered comprehensions (procedures, foods,
supplies, diagnostics, clinical notes) include only values that are
present and truthy — each output value is literally a stored value of
some input item, so the "Unnamed X" default is never injected there;
the unfiltered loops (medicines, prescriptions) instead map every item
to its stored name when the `name` key is present (the empty string
included verbatim) or to the default when it is absent. -/
theorem claim_C1_amended :
    (∀ (key : String) (d : Json) (items vs : List Json),
      filteredValues key d items = Except.ok vs →
      ∀ v ∈ vs, pyTruthy v = true ∧
        ∃ it ∈ items, ∃ gs, it = Json.obj gs ∧ assocLast gs key = some v) ∧
    (∀ (d : Json) (items vs : List Json),
      allItemNames d items = Except.ok vs →
      List.Forall₂ (fun it v => ∃ gs, it = Json.obj gs ∧
        (assocLast gs "name" = some v ∨ (assocLast gs "name" = none ∧ v = d)))
        items vs) :=
  ⟨fun key d items vs h => filteredValues_sound key d items vs h,
   fun d items vs h => allItemNames_sound d items vs h⟩

/-- Witness for C1 (amended) at a concrete diagnostics-style list. -/
theorem claim_C1_amended_witness :
    pyTruthy (Json.str "Bloodwork") = true ∧
    ∃ it ∈ [Json.obj [("name", Json.str "Bloodwork")], Json.obj [("name", Json.str "")]],
      ∃ gs, it = Json.obj gs ∧ assocLast gs "name" = some (Json.str "Bloodwork") :=
  claim_C1_amended.1 "name" (Json.str "Unnamed Diagnostic")
    [Json.obj [("name", Json.str "Bloodwork")], Json.obj [("name", Json.str "")]]
    [Json.str "Bloodwork"] rfl (Json.str "Bloodwork") (by simp)

/-- C2: the claim that a non-empty prescriptions list whose items all
lack a usable name still produces the fixed fallback sentence is FALSE:
a single item with no `name` key yields the listing sentence with
"Unnamed Prescription", not the fallback. -/
theorem claim_C2_counterexample :
    prescriptionsPart (Json.obj [("prescriptions", Json.arr [Json.obj []])]) =
      Except.ok (some "Medications prescribed for home care: Unnamed Prescription. Please follow the specific instructions provided for administration.") ∧
    "Medications prescribed for home care: Unnamed Prescription. Please follow the specific instructions provided for administration." ≠
      noPrescriptionsFallback :=
  ⟨rfl, by decide⟩

/-- C2 (amended): the fixed fallback sentence is produced exactly when
the prescriptions value is falsy (absent, empty list, or otherwise
falsy); the prescriptions section is never omitted on any successful
run; and on well-shaped input a non-empty list always yields the
listing sentence built from every item's stored or defaulted name. -/
theorem claim_C2_amended :
    (∀ (ti v : Json), pyGet ti "prescriptions" (Json.arr []) = Except.ok v →
      pyTruthy v = false → prescriptionsPart ti = Except.ok (some noPrescriptionsFallback)) ∧
    (∀ (ti : Json) (r : Option String), prescriptionsPart ti = Except.ok r → r ≠ none) ∧
    (∀ tfs : List (String × Json), listFieldOkB tfs "prescriptions" "name" = true →
      prescriptionsPart (Json.obj tfs) = Except.ok (specPrescrPart tfs)) := by
  refine ⟨?_, fun ti r h => prescriptionsPart_ne_none ti r h,
    fun tfs h => prescriptionsPart_wellShaped tfs h⟩
  intro ti v hg ht
  simp only [prescriptionsPart, hg, exceptBind_ok]
  rw [if_neg (by simp [ht])]
  rfl

/-- Witness for C2 (amended): an absent prescriptions list yields the
fallback sentence. -/
theorem claim_C2_amended_witness :
    prescriptionsPart (Json.obj []) = Except.ok (some noPrescriptionsFallback) :=
  claim_C2_amended.1 (Json.obj []) (Json.arr []) rfl rfl

/-- C3: the claim that the pipeline completes without raising for any
record, including ones with a `null` sub-record, is FALSE: an explicit
`"patient": null` raises (Python `None.get` is an `AttributeError`),
because `dict.get("patient", {})` only substitutes the default when the
key is absent, not when it is stored as `null`. -/
theorem claim_C3_counterexample :
    consultationSummaryForLLM (Json.obj [("patient", Json.null)]) =
      Except.error "AttributeError" := rfl

/-- C3 (amended): the pipeline completes without raising on every
well-shaped record — one where each present sub-record is a mapping and
each present list-based section is a list of mappings whose note/name
values are strings; absent keys at any level are fine and get the
documented defaults.  A `null` or otherwise mistyped sub-record raises
instead. -/
theorem claim_C3_amended (r : Json) (h : wellShapedB r = true) :
    ∃ s, consultationSummaryForLLM r = Except.ok s := by
  cases r with
  | obj fs =>
    obtain ⟨pfs, cfs, tfs, _, _, _, hsum⟩ := consultationSummary_decomp fs h
    exact ⟨_, hsum⟩
  | null => simp [wellShapedB] at h
  | bool b => simp [wellShapedB] at h
  | num n => simp [wellShapedB] at h
  | str s => simp [wellShapedB] at h
  | arr xs => simp [wellShapedB] at h

/-- Witness for C3 (amended) at the concrete round-trip record. -/
theorem claim_C3_amended_witness :
    wellShapedB miloRecord = true ∧
    ∃ s, consultationSummaryForLLM miloRecord = Except.ok s :=
  ⟨rfl, claim_C3_amended miloRecord rfl⟩

set_option maxRecDepth 80000 in
/-- C4: the round-trip scenario — on the Milo record the assembled user
content contains all six required substrings. -/
theorem claim_C4_roundtrip :
    consultationSummaryForLLM miloRecord = Except.ok miloSummary ∧
    strContains (userPrompt miloSummary) "Milo" = true ∧
    strContains (userPrompt miloSummary) "dog" = true ∧
    strContains (userPrompt miloSummary) "2024-05-01" = true ∧
    strContains (userPrompt miloSummary) "limping" = true ∧
    strContains (userPrompt miloSummary) "Diagnostics performed: X-ray." = true ∧
    strContains (userPrompt miloSummary)
      "Medications prescribed for home care: Carprofen. Please follow the specific instructions" = true :=
  ⟨rfl, by decide, by decide, by decide, by decide, by decide, by decide⟩

/-- C5: with zero qualifying clinical notes the section is exactly the
fixed fallback sentence; with at least one note whose text is present
and non-empty it is "Clinical observations: " followed by every
qualifying note text joined by newlines in original order. -/
theorem claim_C5_clinical_notes (cfs : List (String × Json))
    (h : listFieldOkB cfs "clinical_notes" "note" = true) :
    (specSectionNames cfs "clinical_notes" "note" = [] →
      clinicalNotesSummary (Json.obj cfs) =
        Except.ok "No specific clinical notes recorded for this visit.") ∧
    (specSectionNames cfs "clinical_notes" "note" ≠ [] →
      clinicalNotesSummary (Json.obj cfs) = Except.ok ("Clinical observations: " ++
        String.intercalate "\n" (specSectionNames cfs "clinical_notes" "note"))) := by
  have hc := clinicalNotesSummary_wellShaped cfs h
  constructor
  · intro hq
    rw [hc]
    simp [specClinicalSummary, hq]
  · intro hq
    rw [hc]
    simp [specClinicalSummary, hq]

/-- Witness for C5 at a one-note record. -/
theorem claim_C5_witness :
    listFieldOkB [("clinical_notes", Json.arr [Json.obj [("note", Json.str "Eating well")]])]
      "clinical_notes" "note" = true ∧
    clinicalNotesSummary (Json.obj
      [("clinical_notes", Json.arr [Json.obj [("note", Json.str "Eating well")]])]) =
      Except.ok "Clinical observations: Eating well" :=
  ⟨rfl,
    (claim_C5_clinical_notes
      [("clinical_notes", Json.arr [Json.obj [("note", Json.str "Eating well")]])] rfl).2
      (by decide)⟩

/-- C6: an absent or empty procedures/medicines/foods/supplies list
contributes nothing to the treatment block (the section value is
`none`, whose `toList` is empty in `buildTreatmentParts`), while the
prescriptions section is never omitted on any successful run. -/
theorem claim_C6_empty_sections :
    (∀ tfs : List (String × Json),
      (assocLast tfs "procedures" = none ∨ assocLast tfs "procedures" = some (Json.arr []) →
        proceduresPart (Json.obj tfs) = Except.ok none) ∧
      (assocLast tfs "medicines" = none ∨ assocLast tfs "medicines" = some (Json.arr []) →
        medicinesPart (Json.obj tfs) = Except.ok none) ∧
      (assocLast tfs "foods" = none ∨ assocLast tfs "foods" = some (Json.arr []) →
        foodsPart (Json.obj tfs) = Except.ok none) ∧
      (assocLast tfs "supplies" = none ∨ assocLast tfs "supplies" = some (Json.arr []) →
        suppliesPart (Json.obj tfs) = Except.ok none)) ∧
    (∀ (ti : Json) (r : Option String), prescriptionsPart ti = Except.ok r → r ≠ none) := by
  constructor
  · intro tfs
    refine ⟨?_, ?_, ?_, ?_⟩ <;> rintro (hk | hk) <;>
      simp [proceduresPart, medicinesPart, foodsPart, suppliesPart,
        pyGet, hk, pyTruthy, exceptBind_ok, exceptPure]
  · exact fun ti r h => prescriptionsPart_ne_none ti r h

/-- Witness for C6: a record with no treatment sections at all. -/
theorem claim_C6_witness :
    proceduresPart (Json.obj []) = Except.ok none :=
  (claim_C6_empty_sections.1 []).1 (Or.inl rfl)

/-- C7: on every well-shaped record the user content is the fixed
template with the sections in the fixed order — clinical notes, then
diagnostics, then (inside the treatment block) procedures, medicines,
prescriptions, foods, supplies, restricted to the sections that produce
output — independent of where the values sit in the input record. -/
theorem claim_C7_section_order (fs : List (String × Json))
    (h : wellShapedB (Json.obj fs) = true) :
    ∃ (pn ps cd cr : String) (cfs tfs : List (String × Json)),
      (assocLast fs "consultation").getD (Json.obj []) = Json.obj cfs ∧
      (assocLast cfs "treatment_items").getD (Json.obj []) = Json.obj tfs ∧
      consultationSummaryForLLM (Json.obj fs) = Except.ok (
        "\n    Patient Name: " ++ pn ++
        "\n    Species: " ++ ps ++
        "\n    Consultation Date: " ++ cd ++
        "\n    Reason for Visit: " ++ cr ++
        "\n\n    " ++ specClinicalSummary cfs ++
        "\n\n    --- Diagnostics Summary ---\n    " ++ specDiagSummary cfs ++
        "\n    --- End Diagnostics Summary --\n\n    --- Treatment Summary ---\n    " ++
        allTreatmentSummary ((specProcPart tfs).toList ++ (specMedPart tfs).toList ++
          (specPrescrPart tfs).toList ++ (specFoodsPart tfs).toList ++
          (specSuppliesPart tfs).toList) ++
        "\n    --- End Treatment Summary ---\n\n    Other Instructions/Observations from Vet: (Relying on LLM to infer general advice based on the provided data.)\n    ") := by
  obtain ⟨pfs, cfs, tfs, hpd, hcd, htd, hsum⟩ := consultationSummary_decomp fs h
  refine ⟨pyStr ((assocLast pfs "name").getD (Json.str "Your pet")),
    pyStr ((assocLast pfs "species").getD (Json.str "the species")),
    pyStr ((assocLast cfs "date").getD (Json.str "the recent visit")),
    pyStr ((assocLast cfs "reason").getD (Json.str "the consultation")),
    cfs, tfs, hcd, htd, ?_⟩
  simpa [mkConsultationSummary, specTreatmentParts] using hsum

/-- Witness for C7 at the concrete round-trip record. -/
theorem claim_C7_witness :
    wellShapedB (Json.obj miloFields) = true ∧
    ∃ (pn ps cd cr : String) (cfs tfs : List (String × Json)),
      (assocLast miloFields "consultation").getD (Json.obj []) = Json.obj cfs ∧
      (assocLast cfs "treatment_items").getD (Json.obj []) = Json.obj tfs ∧
      consultationSummaryForLLM (Json.obj miloFields) = Except.ok (
        "\n    Patient Name: " ++ pn ++
        "\n    Species: " ++ ps ++
        "\n    Consultation Date: " ++ cd ++
        "\n    Reason for Visit: " ++ cr ++
        "\n\n    " ++ specClinicalSummary cfs ++
        "\n\n    --- Diagnostics Summary ---\n    " ++ specDiagSummary cfs ++
        "\n    --- End Diagnostics Summary --\n\n    --- Treatment Summary ---\n    " ++
        allTreatmentSummary ((specProcPart tfs).toList ++ (specMedPart tfs).toList ++
          (specPrescrPart tfs).toList ++ (specFoodsPart tfs).toList ++
          (specSuppliesPart tfs).toList) ++
        "\n    --- End Treatment Summary ---\n\n    Other Instructions/Observations from Vet: (Relying on LLM to infer general advice based on the provided data.)\n    ") :=
  ⟨rfl, claim_C7_section_order miloFields rfl⟩

/-- C8: the claim that any non-empty collaborator response is reported
as success is FALSE: a whitespace-only response is non-empty, yet the
script strips it to the empty string and exits 1 with nothing on
standard output. -/
theorem claim_C8_counterexample :
    " " ≠ "" ∧ runFromResponse (some " ") = (1, none) :=
  ⟨by decide, rfl⟩

/-- C8 (amended): a response that is empty AFTER stripping whitespace
yields exit code 1 with no standard output; a response non-empty after
stripping yields exit code 0 with exactly the pretty-printed JSON
object holding the stripped text. -/
theorem claim_C8_amended (s : String) :
    (pyStrip (pyStrip s) = "" → runFromResponse (some s) = (1, none)) ∧
    (pyStrip (pyStrip s) ≠ "" →
      runFromResponse (some s) = (0, some (outputJsonDumps (pyStrip (pyStrip s))))) := by
  constructor
  · intro h
    simp [runFromResponse, generate_discharge_note, mainResult, h]
  · intro h
    simp [runFromResponse, generate_discharge_note, mainResult, h]

/-- Witness for C8 (amended) at a padded non-empty response. -/
theorem claim_C8_amended_witness :
    pyStrip (pyStrip " hi ") ≠ "" ∧
    runFromResponse (some " hi ") = (0, some (outputJsonDumps (pyStrip (pyStrip " hi ")))) :=
  ⟨by decide, (claim_C8_amended " hi ").2 (by decide)⟩

/-- C9: every successfully built treatment block has a part that starts
with "Medications prescribed for home care:", the parts list is never
empty, and consequently the aggregate fallback branch of
`allTreatmentSummary` is never taken — the block is always the joined
parts. -/
theorem claim_C9_prescriptions_always (ti : Json) (parts : List String)
    (h : buildTreatmentParts ti = Except.ok parts) :
    parts ≠ [] ∧
    allTreatmentSummary parts = String.intercalate "\n\n" parts ∧
    ∃ pr, prescriptionsPart ti = Except.ok (some pr) ∧ pr ∈ parts ∧
      strStartsWith pr "Medications prescribed for home care:" = true := by
  obtain ⟨p, m, q, f, s, h1, h2, h3, h4, h5, hparts⟩ := buildTreatmentParts_inv ti parts h
  have hq := prescriptionsPart_ne_none ti q h3
  obtain ⟨pr, rfl⟩ : ∃ x, q = some x := by
    cases q with
    | none => exact absurd rfl hq
    | some x => exact ⟨x, rfl⟩
  have hmem : pr ∈ parts := by
    subst hparts
    simp
  have hnil : parts ≠ [] := by
    intro h0
    rw [h0] at hmem
    simp at hmem
  refine ⟨hnil, ?_, pr, h3, hmem, prescriptionsPart_starts ti pr h3⟩
  cases parts with
  | nil => exact absurd rfl hnil
  | cons a as => rfl

/-- Witness for C9 at the empty treatment record. -/
theorem claim_C9_witness :
    [noPrescriptionsFallback] ≠ [] ∧
    allTreatmentSummary [noPrescriptionsFallback] =
      String.intercalate "\n\n" [noPrescriptionsFallback] ∧
    ∃ pr, prescriptionsPart (Json.obj []) = Except.ok (some pr) ∧
      pr ∈ [noPrescriptionsFallback] ∧
      strStartsWith pr "Medications prescribed for home care:" = true :=
  claim_C9_prescriptions_always (Json.obj []) [noPrescriptionsFallback] rfl

/-- C10: each scalar default ("Your pet", "the species", "the recent
visit", "the consultation") is substituted exactly when the key is
absent from its sub-record; a key present with any value — the empty
string included — passes that stored value through, and string values
are interpolated verbatim (`pyStr` is the identity on strings) into the
fixed template. -/
theorem claim_C10_scalar_defaults (fs pfs cfs : List (String × Json))
    (h : wellShapedB (Json.obj fs) = true)
    (hp : assocLast fs "patient" = some (Json.obj pfs))
    (hc : assocLast fs "consultation" = some (Json.obj cfs)) :
    (assocLast pfs "name" = none →
      pyGet (Json.obj pfs) "name" (Json.str "Your pet") = Except.ok (Json.str "Your pet")) ∧
    (∀ v, assocLast pfs "name" = some v →
      pyGet (Json.obj pfs) "name" (Json.str "Your pet") = Except.ok v) ∧
    (assocLast pfs "species" = none →
      pyGet (Json.obj pfs) "species" (Json.str "the species") =
        Except.ok (Json.str "the species")) ∧
    (∀ v, assocLast pfs "species" = some v →
      pyGet (Json.obj pfs) "species" (Json.str "the species") = Except.ok v) ∧
    (assocLast cfs "date" = none →
      pyGet (Json.obj cfs) "date" (Json.str "the recent visit") =
        Except.ok (Json.str "the recent visit")) ∧
    (∀ v, assocLast cfs "date" = some v →
      pyGet (Json.obj cfs) "date" (Json.str "the recent visit") = Except.ok v) ∧
    (assocLast cfs "reason" = none →
      pyGet (Json.obj cfs) "reason" (Json.str "the consultation") =
        Except.ok (Json.str "the consultation")) ∧
    (∀ v, assocLast cfs "reason" = some v →
      pyGet (Json.obj cfs) "reason" (Json.str "the consultation") = Except.ok v) ∧
    (∀ s : String, pyStr (Json.str s) = s) ∧
    ∃ tfs, consultationSummaryForLLM (Json.obj fs) = Except.ok (mkConsultationSummary
      (pyStr ((assocLast pfs "name").getD (Json.str "Your pet")))
      (pyStr ((assocLast pfs "species").getD (Json.str "the species")))
      (pyStr ((assocLast cfs "date").getD (Json.str "the recent visit")))
      (pyStr ((assocLast cfs "reason").getD (Json.str "the consultation")))
      (specClinicalSummary cfs) (specDiagSummary cfs)
      (allTreatmentSummary (specTreatmentParts tfs))) := by
  refine ⟨fun hk => by simp [pyGet, hk], fun v hk => by simp [pyGet, hk],
    fun hk => by simp [pyGet, hk], fun v hk => by simp [pyGet, hk],
    fun hk => by simp [pyGet, hk], fun v hk => by simp [pyGet, hk],
    fun hk => by simp [pyGet, hk], fun v hk => by simp [pyGet, hk],
    fun s => rfl, ?_⟩
  obtain ⟨pfs', cfs', tfs, hpd, hcd, htd, hsum⟩ := consultationSummary_decomp fs h
  rw [hp] at hpd
  rw [hc] at hcd
  simp only [Option.getD_some, Json.obj.injEq] at hpd hcd
  subst hpd
  subst hcd
  exact ⟨tfs, hsum⟩

/-- Witness for C10 at a record whose patient name is present but
empty: the empty string is taken verbatim, not the default. -/
theorem claim_C10_witness :
    wellShapedB (Json.obj [("patient", Json.obj [("name", Json.str "")]),
      ("consultation", Json.obj [])]) = true ∧
    ((assocLast [("name", Json.str "")] "name" = none →
      pyGet (Json.obj [("name", Json.str "")]) "name" (Json.str "Your pet") =
        Except.ok (Json.str "Your pet")) ∧
    (∀ v, assocLast [("name", Json.str "")] "name" = some v →
      pyGet (Json.obj [("name", Json.str "")]) "name" (Json.str "Your pet") = Except.ok v) ∧
    (assocLast [("name", Json.str "")] "species" = none →
      pyGet (Json.obj [("name", Json.str "")]) "species" (Json.str "the species") =
        Except.ok (Json.str "the species")) ∧
    (∀ v, assocLast [("name", Json.str "")] "species" = some v →
      pyGet (Json.obj [("name", Json.str "")]) "species" (Json.str "the species") =
        Except.ok v) ∧
    (assocLast [] "date" = none →
      pyGet (Json.obj []) "date" (Json.str "the recent visit") =
        Except.ok (Json.str "the recent visit")) ∧
    (∀ v, assocLast [] "date" = some v →
      pyGet (Json.obj []) "date" (Json.str "the recent visit") = Except.ok v) ∧
    (assocLast [] "reason" = none →
      pyGet (Json.obj []) "reason" (Json.str "the consultation") =
        Except.ok (Json.str "the consultation")) ∧
    (∀ v, assocLast [] "reason" = some v →
      pyGet (Json.obj []) "reason" (Json.str "the consultation") = Except.ok v) ∧
    (∀ s : String, pyStr (Json.str s) = s) ∧
    ∃ tfs, consultationSummaryForLLM (Json.obj [("patient", Json.obj [("name", Json.str "")]),
        ("consultation", Json.obj [])]) = Except.ok (mkConsultationSummary
      (pyStr ((assocLast [("name", Json.str "")] "name").getD (Json.str "Your pet")))
      (pyStr ((assocLast [("name", Json.str "")] "species").getD (Json.str "the species")))
      (pyStr ((assocLast [] "date").getD (Json.str "the recent visit")))
      (pyStr ((assocLast [] "reason").getD (Json.str "the consultation")))
      (specClinicalSummary []) (specDiagSummary [])
      (allTreatmentSummary (specTreatmentParts tfs)))) :=
  ⟨rfl, claim_C10_scalar_defaults
    [("patient", Json.obj [("name", Json.str "")]), ("consultation", Json.obj [])]
    [("name", Json.str "")] [] rfl rfl rfl⟩
